import Mathlib

/-!
# Verification of the agentboard ticket/epic core

Shallow embedding of the board's core logic:

* the entity model (`Ticket`, `Epic`, `TicketStatus`, `Role`, `Priority`)
  from `KanbanBoard` (src/unnamed/part_005);
* the placement resolver and status-transition logic of `handleDragEnd`
  (src/unnamed/part_005, lines 270-312);
* the role-gated `implementStory` action (src/unnamed/part_005, lines 314-349);
* the two-pass extraction pipeline `generateEpicFromConversation` of
  `TicketCreationModal` (src/src/components/TicketCreationModal.tsx,
  lines 109-212), together with the caller's collection update
  `handleTicketsCreated` (src/unnamed/part_001).

Machine integers do not occur; JS numbers used here are natural counters
(timestamps from `Date.now()`, story points from `parseInt` on a digit
capture), modelled as `Nat`.  Asynchronous agent calls are modelled by
passing each call's outcome (`Except`) as an explicit argument.
-/

namespace AgentBoard

/-- `type Role = 'analyst' | 'pm' | 'dev' | 'qa'` (part_005, line 51). -/
inductive Role where
  | analyst
  | pm
  | dev
  | qa
deriving DecidableEq, Repr

/-- `type TicketStatus = 'backlog' | 'in-progress' | 'ready-for-testing' | 'done'`
(part_005, line 52). -/
inductive TicketStatus where
  | backlog
  | inProgress
  | readyForTesting
  | done
deriving DecidableEq, Repr

/-- The priority union type of the `Ticket` interface (part_005, line 67). -/
inductive Priority where
  | low
  | medium
  | high
  | critical
deriving DecidableEq, Repr

/-- `interface Epic` (part_005, lines 54-59).  `createdAt : Date` is modelled
as the millisecond timestamp. -/
structure Epic where
  id : String
  title : String
  description : String
  createdAt : Nat
deriving DecidableEq, Repr

/-- `interface Ticket` (part_005, lines 61-70).  `storyPoints?` and `epicId?`
are optional fields. -/
structure Ticket where
  id : String
  title : String
  description : String
  status : TicketStatus
  assignee : Role
  priority : Priority
  storyPoints : Option Nat
  epicId : Option String
deriving DecidableEq, Repr

/-! ## Placement resolver and status transition (`handleDragEnd`) -/

/-- Executable containment of `needle` as a contiguous run inside a character
list: `needle` is a prefix of the list or occurs in its tail. -/
def charsContain (needle : List Char) : List Char → Bool
  | [] => needle.isEmpty
  | c :: rest => needle.isPrefixOf (c :: rest) || charsContain needle rest

/-- JavaScript `String.prototype.includes`: substring containment. -/
def jsIncludes (s sub : String) : Bool :=
  charsContain sub.data s.data

/-- The column-substring classification of a drop-target identifier: the
`if (overId.includes('backlog')) ... else if ...` chain of `handleDragEnd`
(part_005, lines 285-292), tested in the source's fixed order. -/
def statusFromColumnSubstring (overId : String) : Option TicketStatus :=
  if jsIncludes overId "backlog" then some TicketStatus.backlog
  else if jsIncludes overId "in-progress" then some TicketStatus.inProgress
  else if jsIncludes overId "ready-for-testing" then some TicketStatus.readyForTesting
  else if jsIncludes overId "done" then some TicketStatus.done
  else none

/-- Resolution of a drop target to a status (part_005, lines 284-301): the
column-substring chain first, otherwise lookup of the target as a ticket
(`tickets.find(ticket => ticket.id === overId)`), otherwise `none`
("Invalid drop target"). -/
def resolveDropStatus (tickets : List Ticket) (overId : String) : Option TicketStatus :=
  match statusFromColumnSubstring overId with
  | some s => some s
  | none =>
    match tickets.find? (fun t => t.id == overId) with
    | some target => some target.status
    | none => none

/-- The collection update of `handleDragEnd` (part_005, lines 305-309):
`tickets.map(ticket => ticket.id === activeId ? { ...ticket, status: newStatus } : ticket)`. -/
def applyStatus (tickets : List Ticket) (activeId : String) (newStatus : TicketStatus) :
    List Ticket :=
  tickets.map fun t => if t.id == activeId then { t with status := newStatus } else t

/-- `handleDragEnd` (part_005, lines 270-312) as a function from the current
collection, the dragged ticket's id and the drop target (`none` when the
gesture was cancelled with no target, `over == null`) to the collection the
board holds afterwards.  When `onTicketsChange` is not invoked the collection
is returned unchanged. -/
def handleDragEnd (tickets : List Ticket) (activeId : String) (over : Option String) :
    List Ticket :=
  match over with
  | none => tickets
  | some overId =>
    match tickets.find? (fun t => t.id == activeId) with
    | none => tickets
    | some activeTicket =>
      match resolveDropStatus tickets overId with
      | none => tickets
      | some newStatus =>
        if activeTicket.status == newStatus then tickets
        else applyStatus tickets activeId newStatus

/-- The kanban column DOM ids: `id={column-${status}}` (part_005, line 560),
with the status keys of `statusConfig` (part_005, lines 115-120). -/
def statusKey : TicketStatus → String
  | TicketStatus.backlog => "backlog"
  | TicketStatus.inProgress => "in-progress"
  | TicketStatus.readyForTesting => "ready-for-testing"
  | TicketStatus.done => "done"

/-- The droppable column identifier for a status (part_005, line 560). -/
def columnDomId (s : TicketStatus) : String :=
  "column-" ++ statusKey s

/-! ## Sample data used by witnesses and counterexamples -/

/-- A sample in-progress ticket. -/
def sampleTicketA : Ticket :=
  { id := "TICKET-1-0", title := "Login form", description := "Build the login form",
    status := TicketStatus.inProgress, assignee := Role.dev, priority := Priority.medium,
    storyPoints := some 5, epicId := some "EPIC-1" }

/-- A sample backlog ticket. -/
def sampleTicketB : Ticket :=
  { id := "TICKET-1-1", title := "Signup form", description := "Build the signup form",
    status := TicketStatus.backlog, assignee := Role.qa, priority := Priority.high,
    storyPoints := some 3, epicId := some "EPIC-1" }

/-- A backlog ticket whose identifier happens to contain the substring `done`. -/
def trickyTicket : Ticket :=
  { id := "story-done-7", title := "Archive story", description := "An archived story",
    status := TicketStatus.backlog, assignee := Role.dev, priority := Priority.low,
    storyPoints := some 2, epicId := some "EPIC-1" }

/-- A sample board collection. -/
def sampleBoardTickets : List Ticket := [sampleTicketA, sampleTicketB]

/-- A board collection containing `trickyTicket`. -/
def trickyTickets : List Ticket := [sampleTicketA, trickyTicket]

/-! ## Lemmas about the status-transition map -/

/-- `applyStatus` never changes ids, so searching the updated collection for an
id finds the updated image of what the search found before. -/
theorem find?_applyStatus (tickets : List Ticket) (activeId : String) (s : TicketStatus) :
    (applyStatus tickets activeId s).find? (fun t => t.id == activeId) =
      (tickets.find? (fun t => t.id == activeId)).map
        (fun t => { t with status := s }) := by
  induction tickets with
  | nil => rfl
  | cons t ts ih =>
    by_cases h : t.id = activeId
    · simp [applyStatus, List.find?, h]
    · have hb : (t.id == activeId) = false := by simpa using h
      simpa [applyStatus, List.find?, hb] using ih

/-- **C2.** For every ticket collection, active ticket and drop gesture whose
resolved target status equals the active ticket's current status, the
resulting collection is the input collection itself: the status-change
operation is idempotent. -/
theorem dragEnd_same_status_noop (tickets : List Ticket) (activeId overId : String)
    (t : Ticket) (hfind : tickets.find? (fun x => x.id == activeId) = some t)
    (hres : resolveDropStatus tickets overId = some t.status) :
    handleDragEnd tickets activeId (some overId) = tickets := by
  simp only [handleDragEnd, hfind, hres]
  simp

/-- Witness for C2: dropping the in-progress sample ticket back onto the
in-progress column leaves the collection unchanged. -/
theorem dragEnd_same_status_noop_witness :
    handleDragEnd sampleBoardTickets "TICKET-1-0" (some "column-in-progress") =
      sampleBoardTickets :=
  dragEnd_same_status_noop sampleBoardTickets "TICKET-1-0" "column-in-progress"
    sampleTicketA (by rfl) (by rfl)

/-- **C3.** A status change is a frame-preserving update: the output collection
has the same length and order as the input, every ticket whose id differs from
the target is unchanged, and the targeted ticket keeps every field except
`status`, which becomes the requested status. -/
theorem applyStatus_frame (tickets : List Ticket) (activeId : String) (s : TicketStatus) :
    (applyStatus tickets activeId s).length = tickets.length ∧
    ∀ i (hi : i < tickets.length),
      (applyStatus tickets activeId s).get ⟨i, by simpa [applyStatus] using hi⟩ =
        if (tickets.get ⟨i, hi⟩).id = activeId then
          { tickets.get ⟨i, hi⟩ with status := s }
        else tickets.get ⟨i, hi⟩ := by
  refine ⟨by simp [applyStatus], fun i hi => ?_⟩
  by_cases h : (tickets.get ⟨i, hi⟩).id = activeId <;>
    simp [applyStatus, List.get_map, h]

/-- Witness for C3 at position 0 of the sample collection. -/
theorem applyStatus_frame_witness :
    (applyStatus sampleBoardTickets "TICKET-1-0" TicketStatus.done).get
        ⟨0, by decide⟩ =
      if (sampleBoardTickets.get ⟨0, by decide⟩).id = "TICKET-1-0" then
        { sampleBoardTickets.get ⟨0, by decide⟩ with status := TicketStatus.done }
      else sampleBoardTickets.get ⟨0, by decide⟩ :=
  (applyStatus_frame sampleBoardTickets "TICKET-1-0" TicketStatus.done).2 0 (by decide)

/-- **C4.** Dropping an existing ticket on any of the four fixed column
identifiers sets that ticket's status to the column's status, regardless of
its prior status. -/
theorem column_drop_sets_status (tickets : List Ticket) (activeId : String)
    (t : Ticket) (s : TicketStatus)
    (hfind : tickets.find? (fun x => x.id == activeId) = some t) :
    ∃ t', (handleDragEnd tickets activeId (some (columnDomId s))).find?
        (fun x => x.id == activeId) = some t' ∧ t'.status = s := by
  have hres : resolveDropStatus tickets (columnDomId s) = some s := by
    cases s <;> rfl
  simp only [handleDragEnd, hfind, hres]
  by_cases hst : t.status == s
  · rw [if_pos hst]
    exact ⟨t, hfind, by simpa using hst⟩
  · rw [if_neg hst, find?_applyStatus, hfind]
    exact ⟨_, rfl, rfl⟩

/-- Witness for C4: dropping the in-progress sample ticket onto the done
column makes it done. -/
theorem column_drop_sets_status_witness :
    ∃ t', (handleDragEnd sampleBoardTickets "TICKET-1-0"
        (some (columnDomId TicketStatus.done))).find?
        (fun x => x.id == "TICKET-1-0") = some t' ∧ t'.status = TicketStatus.done :=
  column_drop_sets_status sampleBoardTickets "TICKET-1-0" sampleTicketA
    TicketStatus.done (by rfl)

/-- Counterexample for C5 as stated: `trickyTicket` sits in the backlog column
but its id `story-done-7` contains the substring `done`, so dropping the
active ticket onto it resolves to `done`, not to the target ticket's own
status `backlog`. -/
theorem ticket_drop_adopts_status_cex :
    (trickyTickets.find? (fun x => x.id == "story-done-7")).map Ticket.status =
        some TicketStatus.backlog ∧
    ((handleDragEnd trickyTickets "TICKET-1-0" (some "story-done-7")).find?
        (fun x => x.id == "TICKET-1-0")).map Ticket.status =
        some TicketStatus.done := by
  constructor <;> rfl

/-- **C5 (amended).** Dropping onto an existing ticket adopts that ticket's
current status, provided the drop-target identifier contains none of the four
column substrings (otherwise the column classification takes priority). -/
theorem ticket_drop_adopts_target_status (tickets : List Ticket)
    (activeId overId : String) (t u : Ticket)
    (hfind : tickets.find? (fun x => x.id == activeId) = some t)
    (hcol : statusFromColumnSubstring overId = none)
    (hu : tickets.find? (fun x => x.id == overId) = some u) :
    ∃ t', (handleDragEnd tickets activeId (some overId)).find?
        (fun x => x.id == activeId) = some t' ∧ t'.status = u.status := by
  have hres : resolveDropStatus tickets overId = some u.status := by
    unfold resolveDropStatus
    rw [hcol, hu]
  simp only [handleDragEnd, hfind, hres]
  by_cases hst : t.status == u.status
  · rw [if_pos hst]
    exact ⟨t, hfind, by simpa using hst⟩
  · rw [if_neg hst, find?_applyStatus, hfind]
    exact ⟨_, rfl, rfl⟩

/-- Witness for the amended C5: dropping the backlog sample ticket onto the
in-progress sample ticket's card moves it to in-progress. -/
theorem ticket_drop_adopts_target_status_witness :
    ∃ t', (handleDragEnd sampleBoardTickets "TICKET-1-1" (some "TICKET-1-0")).find?
        (fun x => x.id == "TICKET-1-1") = some t' ∧
        t'.status = sampleTicketA.status :=
  ticket_drop_adopts_target_status sampleBoardTickets "TICKET-1-1" "TICKET-1-0"
    sampleTicketB sampleTicketA (by rfl) (by rfl) (by rfl)

/-- **C10.** Column classification by substring containment takes priority
over the ticket lookup: whenever the drop-target identifier contains one of
the four column substrings (tested in the source's fixed order by
`statusFromColumnSubstring`), the resolved status is the one named by the
first matching substring, for every ticket collection — in particular even
when the identifier is the id of an existing ticket in a different column. -/
theorem substring_priority_over_ticket_lookup (tickets : List Ticket)
    (overId : String) (s : TicketStatus)
    (h : statusFromColumnSubstring overId = some s) :
    resolveDropStatus tickets overId = some s := by
  unfold resolveDropStatus
  rw [h]

/-- Witness for C10: the drop target `story-done-7` is the id of an existing
backlog ticket, yet resolution yields `done` because of the substring. -/
theorem substring_priority_over_ticket_lookup_witness :
    resolveDropStatus trickyTickets "story-done-7" = some TicketStatus.done :=
  substring_priority_over_ticket_lookup trickyTickets "story-done-7"
    TicketStatus.done (by rfl)

/-! ## Decimal rendering of timestamps and batch indexes

The generated identifiers interpolate `Date.now()` and the batch index as
decimal numerals (JS template literals).  `Nat.repr` is Lean's decimal
rendering; the lemmas below show it consists of digit characters only and is
injective, which is what identifier disjointness rests on. -/

/-- Numeric value of a decimal digit character. -/
def charVal (c : Char) : Nat := c.toNat - 48

/-- Value of a digit string, most significant digit first. -/
def valOfDigits (l : List Char) : Nat :=
  l.foldl (fun a c => a * 10 + charVal c) 0

/-- Most-significant-first decimal digits of a natural number. -/
def decDigits (n : Nat) : List Char :=
  if _h : n < 10 then [Nat.digitChar n]
  else decDigits (n / 10) ++ [Nat.digitChar (n % 10)]
decreasing_by
  exact Nat.div_lt_self (by omega) (by omega)

theorem digitChar_isDigit_of_lt10 : ∀ n < 10, (Nat.digitChar n).isDigit = true := by
  decide

theorem charVal_digitChar : ∀ n < 10, charVal (Nat.digitChar n) = n := by
  decide

theorem decDigits_isDigit (n : Nat) : ∀ c ∈ decDigits n, c.isDigit = true := by
  induction n using Nat.strong_induction_on with
  | _ n ih =>
    rw [decDigits]
    split
    · next h =>
      intro c hc
      simp only [List.mem_singleton] at hc
      exact hc ▸ digitChar_isDigit_of_lt10 n h
    · next h =>
      intro c hc
      rcases List.mem_append.mp hc with h1 | h2
      · exact ih (n / 10) (Nat.div_lt_self (by omega) (by omega)) c h1
      · simp only [List.mem_singleton] at h2
        exact h2 ▸ digitChar_isDigit_of_lt10 (n % 10) (Nat.mod_lt _ (by omega))

theorem dash_not_mem_decDigits (n : Nat) : '-' ∉ decDigits n := by
  intro h
  exact absurd (decDigits_isDigit n '-' h) (by decide)

theorem valOfDigits_append (l : List Char) (c : Char) :
    valOfDigits (l ++ [c]) = valOfDigits l * 10 + charVal c := by
  simp [valOfDigits, List.foldl_append]

theorem valOfDigits_decDigits (n : Nat) : valOfDigits (decDigits n) = n := by
  induction n using Nat.strong_induction_on with
  | _ n ih =>
    rw [decDigits]
    split
    · next h =>
      simpa [valOfDigits] using charVal_digitChar n h
    · next h =>
      rw [valOfDigits_append, ih (n / 10) (Nat.div_lt_self (by omega) (by omega)),
        charVal_digitChar (n % 10) (Nat.mod_lt _ (by omega))]
      omega

theorem decDigits_inj {m n : Nat} (h : decDigits m = decDigits n) : m = n := by
  have h1 := valOfDigits_decDigits m
  rw [h, valOfDigits_decDigits] at h1
  exact h1.symm

theorem toDigitsCore_eq_decDigits :
    ∀ (f n : Nat) (ds : List Char), n < f →
      Nat.toDigitsCore 10 f n ds = decDigits n ++ ds := by
  intro f
  induction f with
  | zero => intro n ds h; omega
  | succ f ih =>
    intro n ds h
    simp only [Nat.toDigitsCore]
    by_cases h0 : n / 10 = 0
    · have hn : n < 10 := by omega
      rw [if_pos h0, decDigits, dif_pos hn, Nat.mod_eq_of_lt hn]
      rfl
    · have hlt : n / 10 < f := by
        have := Nat.div_lt_self (show 0 < n by omega) (show 1 < 10 by omega)
        omega
      rw [if_neg h0, ih (n / 10) _ hlt]
      conv_rhs => rw [decDigits]
      rw [dif_neg (show ¬n < 10 by omega), List.append_assoc]
      rfl

theorem repr_data (n : Nat) : (Nat.repr n).data = decDigits n := by
  show (Nat.toDigits 10 n).asString.data = decDigits n
  rw [Nat.toDigits, toDigitsCore_eq_decDigits (n + 1) n [] (Nat.lt_succ_self n)]
  simp [List.asString]

theorem repr_data_inj {m n : Nat} (h : (Nat.repr m).data = (Nat.repr n).data) :
    m = n := by
  apply decDigits_inj
  rwa [repr_data, repr_data] at h

theorem dash_not_mem_repr (n : Nat) : '-' ∉ (Nat.repr n).data := by
  rw [repr_data]
  exact dash_not_mem_decDigits n

/-- The characters of a string concatenation. -/
theorem string_data_append (s t : String) : (s ++ t).data = s.data ++ t.data := by
  cases s
  cases t
  rfl

/-- Splitting around a separator that occurs in neither left part is
unambiguous. -/
theorem append_dash_inj {l₁ r₁ l₂ r₂ : List Char} (h₁ : '-' ∉ l₁) (h₂ : '-' ∉ l₂)
    (h : l₁ ++ '-' :: r₁ = l₂ ++ '-' :: r₂) : l₁ = l₂ ∧ r₁ = r₂ := by
  induction l₁ generalizing l₂ with
  | nil =>
    cases l₂ with
    | nil => simpa using h
    | cons b bs =>
      simp only [List.nil_append, List.cons_append, List.cons.injEq] at h
      exact absurd (h.1 ▸ List.mem_cons_self b bs) h₂
  | cons a as ih =>
    cases l₂ with
    | nil =>
      simp only [List.nil_append, List.cons_append, List.cons.injEq] at h
      exact absurd (h.1 ▸ List.mem_cons_self a as) h₁
    | cons b bs =>
      simp only [List.cons_append, List.cons.injEq] at h
      have has : '-' ∉ as := fun hm => h₁ (List.mem_cons_of_mem a hm)
      have hbs : '-' ∉ bs := fun hm => h₂ (List.mem_cons_of_mem b hm)
      have := ih has hbs h.2
      exact ⟨by rw [h.1, this.1], this.2⟩

/-! ## Generated identifiers -/

/-- Epic identifier `` `EPIC-${Date.now()}` `` (TicketCreationModal.tsx,
line 140; also line 218 on the manual path). -/
def epicIdOf (now : Nat) : String :=
  "EPIC-" ++ Nat.repr now

/-- Ticket identifier `` `TICKET-${Date.now()}-${index}` ``
(TicketCreationModal.tsx, line 194; also line 228 on the manual path). -/
def ticketIdOf (now index : Nat) : String :=
  "TICKET-" ++ Nat.repr now ++ "-" ++ Nat.repr index

theorem epicIdOf_data (t : Nat) :
    (epicIdOf t).data = 'E' :: 'P' :: 'I' :: 'C' :: '-' :: (Nat.repr t).data := by
  show ("EPIC-" ++ Nat.repr t).data = _
  rw [string_data_append]
  rfl

theorem ticketIdOf_data (t i : Nat) :
    (ticketIdOf t i).data =
      'T' :: 'I' :: 'C' :: 'K' :: 'E' :: 'T' :: '-' ::
        ((Nat.repr t).data ++ '-' :: (Nat.repr i).data) := by
  show ("TICKET-" ++ Nat.repr t ++ "-" ++ Nat.repr i).data = _
  rw [string_data_append, string_data_append, string_data_append, List.append_assoc]
  rfl

theorem epicIdOf_inj {t t' : Nat} (h : epicIdOf t = epicIdOf t') : t = t' := by
  have hd := congrArg String.data h
  rw [epicIdOf_data, epicIdOf_data] at hd
  apply repr_data_inj
  simpa using hd

theorem ticketIdOf_inj {t i t' i' : Nat} (h : ticketIdOf t i = ticketIdOf t' i') :
    t = t' ∧ i = i' := by
  have hd := congrArg String.data h
  rw [ticketIdOf_data, ticketIdOf_data] at hd
  simp only [List.cons.injEq, true_and] at hd
  have := append_dash_inj (dash_not_mem_repr t) (dash_not_mem_repr t') hd
  exact ⟨repr_data_inj this.1, repr_data_inj this.2⟩

theorem epicIdOf_ne_ticketIdOf (t a b : Nat) : epicIdOf t ≠ ticketIdOf a b := by
  intro h
  have hd := congrArg String.data h
  rw [epicIdOf_data, ticketIdOf_data] at hd
  exact absurd (List.head_eq_of_cons_eq hd) (by decide)

/-! ## Extraction pipeline (`generateEpicFromConversation`) -/

/-- The staged manual ticket form (TicketCreationModal.tsx, lines 52-58). -/
structure TicketForm where
  title : String
  description : String
  priority : Priority
  storyPoints : Nat
  assignee : Role
deriving DecidableEq, Repr

/-- The form's initial state (lines 52-58): priority `medium`, 5 story
points, assignee `dev`. -/
def initialTicketForm : TicketForm :=
  { title := "", description := "", priority := Priority.medium,
    storyPoints := 5, assignee := Role.dev }

/-- The selectable story-point values of the form (lines 461-466); every
reachable form state has `storyPoints` in this list. -/
def storyPointOptions : List Nat := [1, 2, 3, 5, 8, 13]

/-- One parsed story block: the three captures of the story pattern
(line 170), story points already coerced with `parseInt` (line 179). -/
structure Story where
  title : String
  description : String
  storyPoints : Nat
deriving DecidableEq, Repr

/-- Epic title resolution (line 136): the trimmed `Title:` capture when the
pattern matched, else `ticketForm.title || 'Generated Epic'` (the JS `||`
falls back exactly when the staged title is the empty string). -/
def epicTitleOf (form : TicketForm) (titleMatch : Option String) : String :=
  match titleMatch with
  | some t => t
  | none => if form.title = "" then "Generated Epic" else form.title

/-- Epic description resolution (line 137): the trimmed `Description:`
capture when the pattern matched, else the generic literal. -/
def epicDescriptionOf (descMatch : Option String) : String :=
  match descMatch with
  | some d => d
  | none => "Epic generated from conversation"

/-- Fallback policy (lines 184-190): when zero stories were parsed, one story
from the epic's title and description with `ticketForm.storyPoints || 5`
points (the JS `||` falls back exactly when the form value is the number 0). -/
def storiesOrFallback (epicTitle epicDescription : String) (form : TicketForm)
    (parsed : List Story) : List Story :=
  if parsed.length = 0 then
    [{ title := epicTitle, description := epicDescription,
       storyPoints := if form.storyPoints = 0 then 5 else form.storyPoints }]
  else parsed

/-- Materialization of `generateEpicFromConversation` (lines 109-204).

`epicNow` is the `Date.now()` read for the epic id (line 140) and
`clock index` the `Date.now()` read while building ticket `index`
(line 194; the source reads the clock once per ticket inside the `map`).
The regex captures of the two agent passes enter as `titleMatch`,
`descMatch` (epic pass, lines 133-134) and `parsedStories` (story pass,
lines 170-181); the claims under verification quantify over all capture
outcomes, so the scanner itself stays outside the embedding. -/
def generateEpicFromConversation (epicNow : Nat) (clock : Nat → Nat)
    (form : TicketForm) (titleMatch descMatch : Option String)
    (parsedStories : List Story) : Epic × List Ticket :=
  let epicTitle := epicTitleOf form titleMatch
  let epicDescription := epicDescriptionOf descMatch
  let epicId := epicIdOf epicNow
  let epic : Epic :=
    { id := epicId, title := epicTitle, description := epicDescription,
      createdAt := epicNow }
  let stories := storiesOrFallback epicTitle epicDescription form parsedStories
  let tickets : List Ticket := stories.enum.map fun p =>
    { id := ticketIdOf (clock p.1) p.1
      title := p.2.title
      description := p.2.description
      status := TicketStatus.backlog
      assignee := form.assignee
      priority := form.priority
      storyPoints := some p.2.storyPoints
      epicId := some epicId }
  (epic, tickets)

/-- A sample parsed story used by witnesses. -/
def sampleStory : Story :=
  { title := "Email login", description := "Users can log in.", storyPoints := 5 }

/-- Another sample parsed story used by witnesses and counterexamples. -/
def demoStory : Story :=
  { title := "Story", description := "Desc", storyPoints := 3 }

/-- The page's board collections (part_001, lines 36-37). -/
structure BoardState where
  tickets : List Ticket
  epics : List Epic
deriving DecidableEq, Repr

/-- `handleTicketsCreated` (part_001, lines 39-42): append the new tickets
and the new epic to the collections in one state update. -/
def handleTicketsCreated (st : BoardState) (newTickets : List Ticket)
    (epic : Epic) : BoardState :=
  { tickets := st.tickets ++ newTickets, epics := st.epics ++ [epic] }

/-- The externally observable effects of one run of
`generateEpicFromConversation` (lines 109-212).  `setMessagesCallCount`
counts calls to `setMessages`, the modal chat being the component's only
user-visible text output: `resetModal` performs one such call on success
(line 244), while the catch block (lines 207-211) performs none — it only
logs to the developer console. -/
structure RunEffects where
  onTicketsCreatedCall : Option (List Ticket × Epic)
  onCloseCalled : Bool
  consoleErrorCalled : Bool
  setMessagesCallCount : Nat
deriving DecidableEq, Repr

/-- One run of `generateEpicFromConversation` with the transport outcomes of
the two agent passes given explicitly: a rejection of either `chatWithRole`
call throws out of the `try` block into the catch (lines 207-211), which
only calls `console.error`; on success the run calls `onTicketsCreated`,
`onClose` and `resetModal` (lines 204-206). -/
def generateEpicRun (epicNow : Nat) (clock : Nat → Nat) (form : TicketForm)
    (pass1 : Except String (Option String × Option String))
    (pass2 : Except String (List Story)) : RunEffects :=
  match pass1 with
  | Except.error _ =>
    { onTicketsCreatedCall := none, onCloseCalled := false,
      consoleErrorCalled := true, setMessagesCallCount := 0 }
  | Except.ok (titleMatch, descMatch) =>
    match pass2 with
    | Except.error _ =>
      { onTicketsCreatedCall := none, onCloseCalled := false,
        consoleErrorCalled := true, setMessagesCallCount := 0 }
    | Except.ok parsedStories =>
      let r := generateEpicFromConversation epicNow clock form titleMatch
        descMatch parsedStories
      { onTicketsCreatedCall := some (r.2, r.1), onCloseCalled := true,
        consoleErrorCalled := false, setMessagesCallCount := 1 }

/-- The board state after a run: the caller applies `handleTicketsCreated`
exactly when `onTicketsCreated` was invoked (part_001). -/
def boardAfterRun (st : BoardState) (eff : RunEffects) : BoardState :=
  match eff.onTicketsCreatedCall with
  | none => st
  | some (ts, e) => handleTicketsCreated st ts e

/-- **C1.** Every successful extraction run materializes exactly one epic
(appended alone to the epic collection) and at least one ticket; every
produced ticket's `epicId` is the produced epic's id, its status is
`backlog`, and assignee and priority come from the staged manual form. -/
theorem extraction_success_shape (st : BoardState) (epicNow : Nat)
    (clock : Nat → Nat) (form : TicketForm) (tm dm : Option String)
    (ps : List Story) :
    ∃ epic tickets,
      (generateEpicRun epicNow clock form (Except.ok (tm, dm))
          (Except.ok ps)).onTicketsCreatedCall = some (tickets, epic) ∧
      boardAfterRun st (generateEpicRun epicNow clock form (Except.ok (tm, dm))
          (Except.ok ps)) =
        { tickets := st.tickets ++ tickets, epics := st.epics ++ [epic] } ∧
      1 ≤ tickets.length ∧
      ∀ t ∈ tickets, t.epicId = some epic.id ∧ t.status = TicketStatus.backlog ∧
        t.assignee = form.assignee ∧ t.priority = form.priority := by
  refine ⟨(generateEpicFromConversation epicNow clock form tm dm ps).1,
    (generateEpicFromConversation epicNow clock form tm dm ps).2, rfl, rfl, ?_, ?_⟩
  · simp only [generateEpicFromConversation, List.length_map, List.enum_length]
    unfold storiesOrFallback
    split
    · simp
    · next h => omega
  · intro t ht
    simp only [generateEpicFromConversation, List.mem_map] at ht
    obtain ⟨p, hp, rfl⟩ := ht
    exact ⟨rfl, rfl, rfl, rfl⟩

/-- Witness for C1 at a concrete successful two-pass run. -/
theorem extraction_success_shape_witness :
    ∃ epic tickets,
      (generateEpicRun 42 (fun _ => 42) initialTicketForm
          (Except.ok (some "User Login", some "Allow users to authenticate."))
          (Except.ok [sampleStory])).onTicketsCreatedCall = some (tickets, epic) ∧
      boardAfterRun { tickets := [], epics := [] }
          (generateEpicRun 42 (fun _ => 42) initialTicketForm
          (Except.ok (some "User Login", some "Allow users to authenticate."))
          (Except.ok [sampleStory])) =
        { tickets := ([] : List Ticket) ++ tickets, epics := ([] : List Epic) ++ [epic] } ∧
      1 ≤ tickets.length ∧
      ∀ t ∈ tickets, t.epicId = some epic.id ∧ t.status = TicketStatus.backlog ∧
        t.assignee = initialTicketForm.assignee ∧
        t.priority = initialTicketForm.priority :=
  extraction_success_shape { tickets := [], epics := [] } 42 (fun _ => 42)
    initialTicketForm (some "User Login") (some "Allow users to authenticate.")
    [sampleStory]

/-- **C6.** When the story pattern yielded zero matches, exactly one fallback
ticket is produced, carrying the produced epic's title and description and
the manual form's story-point value (the form's value is one of the
selectable options, hence nonzero, so the `|| 5` fallback never replaces
it). -/
theorem extraction_fallback_single_ticket (epicNow : Nat) (clock : Nat → Nat)
    (form : TicketForm) (tm dm : Option String)
    (hsp : form.storyPoints ∈ storyPointOptions) :
    ∃ t, (generateEpicFromConversation epicNow clock form tm dm []).2 = [t] ∧
      t.title = (generateEpicFromConversation epicNow clock form tm dm []).1.title ∧
      t.description =
        (generateEpicFromConversation epicNow clock form tm dm []).1.description ∧
      t.storyPoints = some form.storyPoints := by
  have h0 : ¬form.storyPoints = 0 := by
    intro h
    rw [h] at hsp
    exact absurd hsp (by decide)
  refine ⟨_, rfl, rfl, rfl, ?_⟩
  simp [generateEpicFromConversation, storiesOrFallback, h0]

/-- Witness for C6 with the initial form (5 story points). -/
theorem extraction_fallback_single_ticket_witness :
    ∃ t, (generateEpicFromConversation 9 (fun _ => 9) initialTicketForm
        (some "User Login") none []).2 = [t] ∧
      t.title = (generateEpicFromConversation 9 (fun _ => 9) initialTicketForm
        (some "User Login") none []).1.title ∧
      t.description = (generateEpicFromConversation 9 (fun _ => 9) initialTicketForm
        (some "User Login") none []).1.description ∧
      t.storyPoints = some initialTicketForm.storyPoints :=
  extraction_fallback_single_ticket 9 (fun _ => 9) initialTicketForm
    (some "User Login") none (by decide)

/-- A board that already holds the ticket identifier `TICKET-5-0`, as left
behind by any earlier creation that read `Date.now() = 5`. -/
def collidingBoard : BoardState :=
  { tickets := [{ sampleTicketA with id := "TICKET-5-0" }], epics := [] }

/-- Counterexample for C7 as stated: an extraction invocation that reads
`Date.now() = 5` regenerates exactly the ticket identifier already present
on `collidingBoard`, so produced identifiers are not distinct from all
previously existing ones. -/
theorem extraction_id_reuse_cex :
    (generateEpicFromConversation 5 (fun _ => 5) initialTicketForm none none
        [demoStory]).2.map
        Ticket.id = collidingBoard.tickets.map Ticket.id ∧
    collidingBoard.tickets.map Ticket.id = ["TICKET-5-0"] := by
  exact ⟨rfl, rfl⟩

/-- The produced ticket ids, as a function of the story count and the clock. -/
theorem ticketIds_of_generate (epicNow : Nat) (clock : Nat → Nat)
    (form : TicketForm) (tm dm : Option String) (ps : List Story) :
    (generateEpicFromConversation epicNow clock form tm dm ps).2.map Ticket.id =
      (List.range (storiesOrFallback (epicTitleOf form tm) (epicDescriptionOf dm)
          form ps).length).map (fun i => ticketIdOf (clock i) i) := by
  simp only [generateEpicFromConversation, List.map_map]
  show (storiesOrFallback (epicTitleOf form tm) (epicDescriptionOf dm) form
      ps).enum.map (fun p => ticketIdOf (clock p.1) p.1) = _
  have h1 : (fun p : Nat × Story => ticketIdOf (clock p.1) p.1) =
      (fun i => ticketIdOf (clock i) i) ∘ Prod.fst := rfl
  rw [h1, ← List.map_map, List.enum_map_fst]

/-- **C7 (amended).** All identifiers produced within one extraction
invocation are pairwise distinct; they are moreover distinct from every
already-present identifier provided each existing identifier was minted by
the generators at a wall-clock millisecond different from the ones this
invocation reads (identifiers are time-based, so two creations sharing a
millisecond can collide — see the counterexample). -/
theorem extraction_ids_unique (epicNow : Nat) (clock : Nat → Nat)
    (form : TicketForm) (tm dm : Option String) (ps : List Story)
    (existing : List String)
    (hex : ∀ id ∈ existing,
        (∃ t, id = epicIdOf t ∧ t ≠ epicNow) ∨
        (∃ t i, id = ticketIdOf t i ∧ ∀ j, t ≠ clock j)) :
    ((generateEpicFromConversation epicNow clock form tm dm ps).1.id ::
        (generateEpicFromConversation epicNow clock form tm dm ps).2.map
          Ticket.id).Nodup ∧
    ∀ id ∈ (generateEpicFromConversation epicNow clock form tm dm ps).1.id ::
        (generateEpicFromConversation epicNow clock form tm dm ps).2.map
          Ticket.id, id ∉ existing := by
  have hep : (generateEpicFromConversation epicNow clock form tm dm ps).1.id =
      epicIdOf epicNow := rfl
  rw [ticketIds_of_generate, hep]
  constructor
  · rw [List.nodup_cons]
    refine ⟨?_, ?_⟩
    · intro hmem
      rcases List.mem_map.mp hmem with ⟨i, _, heq⟩
      exact epicIdOf_ne_ticketIdOf epicNow (clock i) i heq.symm
    · exact List.Nodup.map (fun i j hij => (ticketIdOf_inj hij).2)
        (List.nodup_range _)
  · intro id hid hmem
    rcases List.mem_cons.mp hid with rfl | hid2
    · rcases hex _ hmem with ⟨t, heq, hne⟩ | ⟨t, i, heq, _⟩
      · exact hne (epicIdOf_inj heq).symm
      · exact epicIdOf_ne_ticketIdOf epicNow t i heq
    · rcases List.mem_map.mp hid2 with ⟨i, _, rfl⟩
      rcases hex _ hmem with ⟨t, heq, _⟩ | ⟨t, j, heq, hall⟩
      · exact epicIdOf_ne_ticketIdOf t (clock i) i heq.symm
      · exact hall i (ticketIdOf_inj heq.symm).1

/-- Witness for the amended C7: a batch minted at millisecond 7 against a
board whose identifiers were minted at millisecond 3. -/
theorem extraction_ids_unique_witness :
    ((generateEpicFromConversation 7 (fun _ => 7) initialTicketForm none none
        [demoStory]).1.id ::
        (generateEpicFromConversation 7 (fun _ => 7) initialTicketForm none none
        [demoStory]).2.map
          Ticket.id).Nodup ∧
    ∀ id ∈ (generateEpicFromConversation 7 (fun _ => 7) initialTicketForm none
        none [demoStory]).1.id ::
        (generateEpicFromConversation 7 (fun _ => 7) initialTicketForm none none
        [demoStory]).2.map
          Ticket.id, id ∉ ["EPIC-3", "TICKET-3-0"] :=
  extraction_ids_unique 7 (fun _ => 7) initialTicketForm none none
    [demoStory]
    ["EPIC-3", "TICKET-3-0"] (by
      intro id hid
      rcases List.mem_cons.mp hid with rfl | hid2
      · exact Or.inl ⟨3, by decide, by decide⟩
      · rcases List.mem_cons.mp hid2 with rfl | hid3
        · exact Or.inr ⟨3, 0, by decide, fun _ => (by decide : (3 : Nat) ≠ 7)⟩
        · cases hid3)

/-- Counterexample for C8 as stated: at a concrete transport failure of the
first pass the run performs no board mutation and no `setMessages` call —
its only effect is the developer-console log, so the failure is not
reported as a user-visible message. -/
theorem extraction_failure_silent_cex :
    generateEpicRun 0 (fun _ => 0) initialTicketForm
        (Except.error "API Error: 500 Internal Server Error") (Except.ok []) =
      { onTicketsCreatedCall := none, onCloseCalled := false,
        consoleErrorCalled := true, setMessagesCallCount := 0 } := rfl

/-- **C8 (amended).** A transport failure during either pass aborts the
whole pipeline and leaves the board collections unchanged (no partial epic
or ticket set); the failure is logged to the developer console only — no
user-visible message is produced. -/
theorem extraction_failure_aborts (st : BoardState) (epicNow : Nat)
    (clock : Nat → Nat) (form : TicketForm)
    (pass1 : Except String (Option String × Option String))
    (pass2 : Except String (List Story))
    (hfail : (∃ e, pass1 = Except.error e) ∨
        (∃ r e, pass1 = Except.ok r ∧ pass2 = Except.error e)) :
    (generateEpicRun epicNow clock form pass1 pass2).onTicketsCreatedCall =
        none ∧
    boardAfterRun st (generateEpicRun epicNow clock form pass1 pass2) = st ∧
    (generateEpicRun epicNow clock form pass1 pass2).consoleErrorCalled = true ∧
    (generateEpicRun epicNow clock form pass1 pass2).setMessagesCallCount = 0 := by
  rcases hfail with ⟨e, rfl⟩ | ⟨⟨tm, dm⟩, e, rfl, rfl⟩ <;>
    exact ⟨rfl, rfl, rfl, rfl⟩

/-- Witness for the amended C8 at a concrete second-pass failure. -/
theorem extraction_failure_aborts_witness :
    (generateEpicRun 1 (fun _ => 1) initialTicketForm
        (Except.ok (none, none)) (Except.error "network error")).onTicketsCreatedCall = none ∧
    boardAfterRun { tickets := [sampleTicketA], epics := [] }
        (generateEpicRun 1 (fun _ => 1) initialTicketForm
        (Except.ok (none, none)) (Except.error "network error")) =
      { tickets := [sampleTicketA], epics := [] } ∧
    (generateEpicRun 1 (fun _ => 1) initialTicketForm
        (Except.ok (none, none)) (Except.error "network error")).consoleErrorCalled = true ∧
    (generateEpicRun 1 (fun _ => 1) initialTicketForm
        (Except.ok (none, none)) (Except.error "network error")).setMessagesCallCount = 0 :=
  extraction_failure_aborts { tickets := [sampleTicketA], epics := [] } 1
    (fun _ => 1) initialTicketForm (Except.ok (none, none))
    (Except.error "network error")
    (Or.inr ⟨(none, none), "network error", rfl, rfl⟩)

/-! ## The dev role action (`implementStory`) -/

/-- The component state touched by `implementStory` (part_005): the ticket
collection pushed through `onTicketsChange` and the `implementationError`
banner state (rendered in the alert at lines 454-460). -/
structure ImplementOutcome where
  tickets : List Ticket
  implementationError : Option String
deriving DecidableEq, Repr

/-- `implementStory` (part_005, lines 314-349) with the outcome of the `dev`
`chatWithRole` round trip passed explicitly: on success the collection
update to `ready-for-testing` (lines 334-338) runs with the error state
cleared (line 316); on rejection the catch (lines 342-345) records the error
message and performs no collection update. -/
def implementStory (tickets : List Ticket) (ticket : Ticket)
    (apiResult : Except String Unit) : ImplementOutcome :=
  match apiResult with
  | Except.ok _ =>
    { tickets := tickets.map fun t =>
        if t.id == ticket.id then { t with status := TicketStatus.readyForTesting }
        else t
      implementationError := none }
  | Except.error e =>
    { tickets := tickets, implementationError := some e }

/-- The guard under which the dev action button is offered
(`getActionButton`, part_005, line 396). -/
def implementActionOffered (currentRole : Role) (t : Ticket) : Bool :=
  currentRole == Role.dev && t.status == TicketStatus.inProgress

/-- **C9.** For a dev-role action on an in-progress ticket: if the agent call
rejects, the collection (hence the ticket's status) is unchanged and the
error message is recorded in the user-visible error state; the move to
`ready-for-testing` happens only on the success outcome. -/
theorem implementStory_failure_nondestructive (tickets : List Ticket)
    (ticket : Ticket) (r : Role) (e : String)
    (hoff : implementActionOffered r ticket = true) :
    (implementStory tickets ticket (Except.error e)).tickets = tickets ∧
    (implementStory tickets ticket (Except.error e)).implementationError =
        some e ∧
    ticket.status = TicketStatus.inProgress ∧
    (implementStory tickets ticket (Except.ok ())).tickets =
      applyStatus tickets ticket.id TicketStatus.readyForTesting := by
  refine ⟨rfl, rfl, ?_, rfl⟩
  simp [implementActionOffered] at hoff
  exact hoff.2

/-- Witness for C9 on the in-progress sample ticket. -/
theorem implementStory_failure_nondestructive_witness :
    (implementStory sampleBoardTickets sampleTicketA
        (Except.error "API Error: 500")).tickets = sampleBoardTickets ∧
    (implementStory sampleBoardTickets sampleTicketA
        (Except.error "API Error: 500")).implementationError =
        some "API Error: 500" ∧
    sampleTicketA.status = TicketStatus.inProgress ∧
    (implementStory sampleBoardTickets sampleTicketA
        (Except.ok ())).tickets =
      applyStatus sampleBoardTickets sampleTicketA.id
        TicketStatus.readyForTesting :=
  implementStory_failure_nondestructive sampleBoardTickets sampleTicketA
    Role.dev "API Error: 500" (by rfl)

end AgentBoard
